import Mathlib

/-!
Verification development for the near-Earth-object repository
(`src/models.py`, `src/extract.py`, `src/write.py`).

The Python code is shallowly embedded: Python values that flow through the
record constructors are modelled by `PyVal`, Python `float` data by the
decimal representation `PyFloat` (a value `m / 10 ^ e`; binary double
rounding is not modelled, no claim depends on it), and raising code by
`Except PyErr`.  Keyword-argument dictionaries are modelled as finite maps
`String → Option PyVal` (`Option.none` meaning the key is missing, so that
subscripting raises `KeyError`).
-/

/-- The Python exception classes that the embedded code can raise. -/
inductive PyErr : Type where
  | fileNotFoundError : PyErr
  | valueError : PyErr
  | typeError : PyErr
  | keyError : PyErr
  | indexError : PyErr
  | nameError : PyErr
  | attributeError : PyErr
deriving DecidableEq

/-- A Python float as the decimal value `m / 10 ^ e`, or the NaN that
`float("nan")` produces.  Equality of `PyFloat` is the bitwise / NaN-aware
equality used when comparing record fields. -/
inductive PyFloat : Type where
  | nan : PyFloat
  | num (m : Int) (e : Nat) : PyFloat
deriving DecidableEq

/-- Whether a float value is (a representation of) zero, the only falsy
float. -/
def PyFloat.isZero : PyFloat → Bool
  | .nan => false
  | .num m _ => m == 0

/-- The Python values that reach the constructors: `None`, strings, floats
and booleans. -/
inductive PyVal : Type where
  | none : PyVal
  | str (s : String) : PyVal
  | float (f : PyFloat) : PyVal
  | bool (b : Bool) : PyVal
deriving DecidableEq

/-- Python truthiness of a value: `None`, the empty string, `0.0` and
`False` are falsy, everything else the constructors see is truthy
(NaN is truthy). -/
def PyVal.truthy : PyVal → Bool
  | .none => false
  | .str s => !(s == "")
  | .float f => !f.isZero
  | .bool b => b

/-- Python `a or b`: `a` when `a` is truthy, else `b`. -/
def pyOr (a b : PyVal) : PyVal :=
  if a.truthy then a else b

/-- Python `v == lit` for a string literal `lit`: string equality when `v`
is a string, `False` for every other type of value. -/
def pyEqStr (v : PyVal) (lit : String) : Bool :=
  match v with
  | .str s => s == lit
  | _ => false

/-- A keyword-argument dictionary: `Option.none` means the key is absent. -/
abbrev Info : Type := String → Option PyVal

/-- Python dictionary subscripting `info[k]`: raises `KeyError` when the key
is missing. -/
def dictGet (info : Info) (k : String) : Except PyErr PyVal :=
  match info k with
  | some v => .ok v
  | Option.none => .error .keyError

/-- The numeric value of a list of decimal digit characters. -/
def digitsToNat (cs : List Char) : Nat :=
  cs.foldl (fun a c => 10 * a + (c.toNat - 48)) 0

/-- Whitespace recognised when `float` strips its string argument. -/
def isSpaceChar (c : Char) : Bool :=
  c == ' ' || c == '\t' || c == '\n' || c == '\r'

/-- Strip leading and trailing whitespace from a character list. -/
def trimChars (cs : List Char) : List Char :=
  ((cs.dropWhile isSpaceChar).reverse.dropWhile isSpaceChar).reverse

/-- Split a character list at every occurrence of `sep` (the separator is
dropped; adjacent separators give empty groups). -/
def splitOnChar (sep : Char) (cs : List Char) : List (List Char) :=
  match cs with
  | [] => [[]]
  | c :: rest =>
    let r := splitOnChar sep rest
    if c = sep then [] :: r
    else
      match r with
      | [] => [[c]]
      | g :: gs => (c :: g) :: gs

/-- Attach a sign to a digit value. -/
def signApply (neg : Bool) (n : Nat) : Int :=
  if neg then -(n : Int) else (n : Int)

/-- The body of `parseFloat`, after the optional sign: plain digits, digits
with one decimal point, or (case-insensitively) `nan`. -/
def parseFloatBody (neg : Bool) (body : List Char) : Option PyFloat :=
  if body.map Char.toLower = "nan".data then some PyFloat.nan
  else
    match splitOnChar '.' body with
    | [ip] =>
      if (!ip.isEmpty) && ip.all Char.isDigit then
        some (PyFloat.num (signApply neg (digitsToNat ip)) 0)
      else Option.none
    | [ip, fp] =>
      if ip.isEmpty && fp.isEmpty then Option.none
      else if ip.all Char.isDigit && fp.all Char.isDigit then
        some (PyFloat.num
          (signApply neg (digitsToNat ip * 10 ^ fp.length + digitsToNat fp))
          fp.length)
      else Option.none
    | _ => Option.none

/-- The string case of Python `float()`: optional surrounding whitespace, an
optional sign, then decimal digits with an optional fractional part, or
`nan`.  The exponent, infinity and digit-underscore forms of the Python
float grammar are not modelled; no input in the claims uses them. -/
def parseFloat (s : String) : Option PyFloat :=
  match trimChars s.data with
  | '-' :: body => parseFloatBody true body
  | '+' :: body => parseFloatBody false body
  | body => parseFloatBody false body

/-- The Python builtin `float()` on the values the constructors can receive:
a malformed string raises `ValueError`, `None` raises `TypeError`, floats
pass through unchanged, booleans convert to `0.0` / `1.0`. -/
def pyFloatOf : PyVal → Except PyErr PyFloat
  | .str s =>
    match parseFloat s with
    | some f => .ok f
    | Option.none => .error .valueError
  | .float f => .ok f
  | .bool b => .ok (.num (if b then 1 else 0) 0)
  | .none => .error .typeError

/-- The conditional expression `float(v) if v else <default>` used for the
diameter, distance and velocity fields. -/
def floatOrElse (v : PyVal) (dflt : PyFloat) : Except PyErr PyFloat :=
  if v.truthy then pyFloatOf v else pure dflt

/-- A parsed approach timestamp (year, month, day, hour, minute — the
precision of the `%Y-%b-%d %H:%M` input format). -/
structure DateTime where
  year : Nat
  month : Nat
  day : Nat
  hour : Nat
  minute : Nat
deriving DecidableEq

/-- Month number of a `%b` month abbreviation. -/
def monthNum (cs : List Char) : Option Nat :=
  match String.mk cs with
  | "Jan" => some 1
  | "Feb" => some 2
  | "Mar" => some 3
  | "Apr" => some 4
  | "May" => some 5
  | "Jun" => some 6
  | "Jul" => some 7
  | "Aug" => some 8
  | "Sep" => some 9
  | "Oct" => some 10
  | "Nov" => some 11
  | "Dec" => some 12
  | _ => Option.none

/-- A nonempty all-digit numeric field, as `strptime` reads one. -/
def parseNatField (cs : List Char) : Option Nat :=
  if (!cs.isEmpty) && cs.all Char.isDigit then some (digitsToNat cs)
  else Option.none

/-- Modelled from the spec: `helpers.cd_to_datetime` (file `helpers.py` is
not under `src/`).  Parses the fixed calendar-date format
`YYYY-Mon-DD HH:MM` of the approach data (for example
`1900-Jan-01 00:00`); any other shape raises `ValueError`, and a non-string
argument raises `TypeError`. -/
def cd_to_datetime (v : PyVal) : Except PyErr DateTime :=
  match v with
  | .str s =>
    match splitOnChar ' ' s.data with
    | [datePart, timePart] =>
      match splitOnChar '-' datePart, splitOnChar ':' timePart with
      | [y, mon, d], [h, mi] =>
        match parseNatField y, monthNum mon, parseNatField d,
            parseNatField h, parseNatField mi with
        | some yv, some mv, some dv, some hv, some miv =>
          .ok (DateTime.mk yv mv dv hv miv)
        | _, _, _, _, _ => .error .valueError
      | _, _ => .error .valueError
    | _ => .error .valueError
  | _ => .error .typeError

/-- The conditional expression `cd_to_datetime(v) if v else None` used for
the time field. -/
def timeOrNone (v : PyVal) : Except PyErr (Option DateTime) :=
  if v.truthy then (cd_to_datetime v).map some else pure Option.none

/-- Decimal digit characters of `n`, most significant first (the first
argument is recursion fuel, always instantiated with `n` itself). -/
def natDecAux : Nat → Nat → List Char
  | 0, n => [Char.ofNat (48 + n % 10)]
  | fuel + 1, n =>
    if n < 10 then [Char.ofNat (48 + n)]
    else natDecAux fuel (n / 10) ++ [Char.ofNat (48 + n % 10)]

/-- Decimal string of a natural number. -/
def natDec (n : Nat) : String := String.mk (natDecAux n n)

/-- Left-pad a digit list with zeros up to a given width. -/
def padZeros (width : Nat) (cs : List Char) : List Char :=
  List.replicate (width - cs.length) '0' ++ cs

/-- Two-digit zero-padded field, as `%m`, `%d`, `%H` and `%M` format. -/
def pad2 (n : Nat) : String := String.mk (padZeros 2 (natDecAux n n))

/-- Modelled from the spec: `helpers.datetime_to_str` (file `helpers.py` is
not under `src/`).  Formats a timestamp as `YYYY-MM-DD HH:MM`, the
serialized form that omits seconds-level precision.  The spec does not pin
down the behaviour on an absent time; the placeholder string returned for
it is never inspected by a claim. -/
def datetime_to_str : Option DateTime → String
  | some t =>
    natDec t.year ++ "-" ++ pad2 t.month ++ "-" ++ pad2 t.day ++ " " ++
      pad2 t.hour ++ ":" ++ pad2 t.minute
  | Option.none => "None"

mutual

inductive NearEarthObject : Type where
  | mk (designation : PyVal) (name : PyVal) (diameter : PyFloat)
      (hazardous : Bool) (approaches : List CloseApproach) : NearEarthObject

inductive CloseApproach : Type where
  | mk ( _designation : PyVal) (time : Option DateTime) (distance : PyFloat)
      (velocity : PyFloat) (neo : Option NearEarthObject) : CloseApproach

end

def NearEarthObject.designation : NearEarthObject → PyVal
  | .mk d _ _ _ _ => d

def NearEarthObject.name : NearEarthObject → PyVal
  | .mk _ n _ _ _ => n

def NearEarthObject.diameter : NearEarthObject → PyFloat
  | .mk _ _ di _ _ => di

def NearEarthObject.hazardous : NearEarthObject → Bool
  | .mk _ _ _ h _ => h

def NearEarthObject.approaches : NearEarthObject → List CloseApproach
  | .mk _ _ _ _ a => a

def CloseApproach._designation : CloseApproach → PyVal
  | .mk d _ _ _ _ => d

def CloseApproach.time : CloseApproach → Option DateTime
  | .mk _ t _ _ _ => t

def CloseApproach.distance : CloseApproach → PyFloat
  | .mk _ _ di _ _ => di

def CloseApproach.velocity : CloseApproach → PyFloat
  | .mk _ _ _ v _ => v

def CloseApproach.neo : CloseApproach → Option NearEarthObject
  | .mk _ _ _ _ n => n

/-- `NearEarthObject.__init__` (src/models.py lines 36-51), line by line:
`designation = info["pdes"] or ""`, `name = info["name"] or None`,
`diameter = float(info["diameter"]) if info["diameter"] else float("nan")`,
`hazardous = info["pha"] == "Y"`, `approaches = []`.  The statements run in
source order, so the first failing line determines the raised exception. -/
def NearEarthObject.init (info : Info) : Except PyErr NearEarthObject := do
  let pdesV ← dictGet info "pdes"
  let nameV ← dictGet info "name"
  let diamV ← dictGet info "diameter"
  let diameter ← floatOrElse diamV PyFloat.nan
  let phaV ← dictGet info "pha"
  pure (NearEarthObject.mk (pyOr pdesV (.str "")) (pyOr nameV .none)
    diameter (pyEqStr phaV "Y") [])

/-- String conversion of the values interpolated into f-strings and written
to CSV cells.  The rendering of a numeric value approximates Python float
repr (trailing zeros are kept); no claim inspects a rendered number. -/
def floatRepr : PyFloat → String
  | .nan => "nan"
  | .num m e =>
    let sign := if m < 0 then "-" else ""
    let a := m.natAbs
    if e = 0 then sign ++ natDec a ++ ".0"
    else
      sign ++ natDec (a / 10 ^ e) ++ "." ++
        String.mk (padZeros e (natDecAux (a % 10 ^ e) (a % 10 ^ e)))

/-- Python `str()` of an embedded value. -/
def pyStr : PyVal → String
  | .none => "None"
  | .str s => s
  | .float f => floatRepr f
  | .bool b => if b then "True" else "False"

/-- `NearEarthObject.fullname` (src/models.py lines 53-65):
`designation (name)` when the name is truthy, else the designation when it
is truthy, else the literal fallback string. -/
def NearEarthObject.fullname (neo : NearEarthObject) : String :=
  if neo.name.truthy then
    pyStr neo.designation ++ " (" ++ pyStr neo.name ++ ")"
  else if neo.designation.truthy then
    pyStr neo.designation
  else
    "(No name specified)"

/-- A JSON value as `json.dump` receives it. -/
inductive JVal : Type where
  | str (s : String) : JVal
  | num (f : PyFloat) : JVal
  | bool (b : Bool) : JVal
  | null : JVal
  | obj (fields : List (String × JVal)) : JVal

/-- How `json.dump` encodes an attribute value. -/
def PyVal.toJVal : PyVal → JVal
  | .none => .null
  | .str s => .str s
  | .float f => .num f
  | .bool b => .bool b

/-- Reading a serialized JSON field back as a Python value (inverse of
`PyVal.toJVal`; nested objects do not occur among the recognized fields). -/
def JVal.toPyVal : JVal → PyVal
  | .null => .none
  | .str s => .str s
  | .num f => .float f
  | .bool b => .bool b
  | .obj _ => .none

/-- `NearEarthObject.serialize` (src/models.py lines 80-87). -/
def NearEarthObject.serialize (neo : NearEarthObject) : List (String × JVal) :=
  [("designation", neo.designation.toJVal),
   ("name", neo.name.toJVal),
   ("diameter_km", JVal.num neo.diameter),
   ("potentially_hazardous", JVal.bool neo.hazardous)]

/-- `CloseApproach.__init__` (src/models.py lines 104-123), line by line:
`_designation = info["designation"] or ""`,
`time = cd_to_datetime(info["time"]) if info["time"] else None`,
`distance = float(info["distance"]) if info["distance"] else float(0.0)`,
`velocity = float(info["velocity"]) if info["velocity"] else float(0.0)`,
`neo = None`. -/
def CloseApproach.init (info : Info) : Except PyErr CloseApproach := do
  let desV ← dictGet info "designation"
  let timeV ← dictGet info "time"
  let time ← timeOrNone timeV
  let distV ← dictGet info "distance"
  let distance ← floatOrElse distV (PyFloat.num 0 0)
  let velV ← dictGet info "velocity"
  let velocity ← floatOrElse velV (PyFloat.num 0 0)
  pure (CloseApproach.mk (pyOr desV (.str "")) time distance velocity
    Option.none)

/-- `CloseApproach.time_str` (src/models.py lines 125-138). -/
def CloseApproach.time_str (ca : CloseApproach) : String :=
  datetime_to_str ca.time

/-- Attribute access on `self.neo`: `None` has no NEO attributes, so the
access raises `AttributeError`. -/
def neoAttr (o : Option NearEarthObject) : Except PyErr NearEarthObject :=
  match o with
  | some n => .ok n
  | Option.none => .error .attributeError

/-- Rendering of a float under the `.2f` format code.  Halves round away
from zero here while Python rounds them to even; the difference is
display-only and no claim inspects a rendered number. -/
def formatFixed2 : PyFloat → String
  | .nan => "nan"
  | .num m e =>
    let sign := if m < 0 then "-" else ""
    let den := 10 ^ e
    let n := (2 * (m.natAbs * 100) + den) / (2 * den)
    sign ++ natDec (n / 100) ++ "." ++ pad2 (n % 100)

/-- `CloseApproach.__str__` (src/models.py lines 140-143): interpolates
`self.neo.fullname`, so an unset NEO reference raises `AttributeError`. -/
def CloseApproach.str (ca : CloseApproach) : Except PyErr String := do
  let neo ← neoAttr ca.neo
  pure ("At " ++ ca.time_str ++ ", \x27" ++ neo.fullname ++
    "\x27 approaches Earth at a distance of " ++ formatFixed2 ca.distance ++
    " au and a velocity of " ++ formatFixed2 ca.velocity ++ " km/s.")

/-- `CloseApproach.serialize` (src/models.py lines 150-156). -/
def CloseApproach.serialize (ca : CloseApproach) : List (String × JVal) :=
  [("datetime_utc", JVal.str ca.time_str),
   ("distance_au", JVal.num ca.distance),
   ("velocity_km_s", JVal.num ca.velocity)]

/-- Left-to-right effectful map over a list, stopping at the first raised
exception — the evaluation order of a Python list comprehension or
`list(map(...))`. -/
def mapE {ε α β : Type} (f : α → Except ε β) : List α → Except ε (List β)
  | [] => .ok []
  | a :: as => do
    let b ← f a
    let bs ← mapE f as
    pure (b :: bs)

/-- Python `list.index(x)`: position of the first occurrence, `ValueError`
when the element does not occur. -/
def listIndex (x : String) : List String → Except PyErr Nat
  | [] => .error .valueError
  | a :: as =>
    if a = x then .ok 0
    else (listIndex x as).map (· + 1)

/-- Python list subscripting `item[i]` for a nonnegative index: raises
`IndexError` past the end. -/
def pyIndex (item : List PyVal) (i : Nat) : Except PyErr PyVal :=
  match item.get? i with
  | some v => .ok v
  | Option.none => .error .indexError

/-- The parsed content of an approaches JSON file: a `fields` array naming
the columns and a `data` array of positionally-ordered rows. -/
structure CadJson where
  fields : List String
  data : List (List PyVal)

/-- The body of the `with` block of `load_approaches` (src/extract.py lines
49-71): resolve the four field names to column positions once with
`list.index`, then build one `CloseApproach` per data row from the values
at those positions, passed as the keyword arguments `designation`, `time`,
`distance`, `velocity`. -/
def approachesFromJson (j : CadJson) : Except PyErr (List CloseApproach) := do
  let destinationIndex ← listIndex "des" j.fields
  let timeIndex ← listIndex "cd" j.fields
  let distanceIndex ← listIndex "dist" j.fields
  let velocityIndex ← listIndex "v_rel" j.fields
  mapE (fun item => do
    let des ← pyIndex item destinationIndex
    let t ← pyIndex item timeIndex
    let dist ← pyIndex item distanceIndex
    let vel ← pyIndex item velocityIndex
    CloseApproach.init (fun k =>
      if k = "designation" then some des
      else if k = "time" then some t
      else if k = "distance" then some dist
      else if k = "velocity" then some vel
      else Option.none)) j.data

/-- `load_neos` (src/extract.py lines 21-38) over a file system mapping
paths to parsed CSV rows (`Option.none` = no such file; CSV parsing itself
is an external collaborator).  Result: the lines printed, and the outcome.
When the file is missing, `open` raises `FileNotFoundError` before binding
`f`; the handler prints `File not found`, and then the `finally` clause
evaluates `f.close()` with `f` unbound, so the call raises
`UnboundLocalError` — a subclass of `NameError` — to the caller.  On an
existing file the rows are constructed in order and any constructor
exception propagates (the `finally` close of the already-closed file is a
no-op). -/
def load_neos (fs : String → Option (List Info)) (neo_csv_path : String) :
    List String × Except PyErr (List NearEarthObject) :=
  match fs neo_csv_path with
  | some rows => ([], mapE NearEarthObject.init rows)
  | Option.none => (["File not found"], .error .nameError)

/-- `load_approaches` (src/extract.py lines 41-75) over a file system
mapping paths to parsed JSON documents.  The `try` / `except` / `finally`
shape is identical to `load_neos`, including the unbound `f.close()` in the
missing-file path. -/
def load_approaches (fs : String → Option CadJson) (cad_json_path : String) :
    List String × Except PyErr (List CloseApproach) :=
  match fs cad_json_path with
  | some j => ([], approachesFromJson j)
  | Option.none => (["File not found"], .error .nameError)

/-- The CSV header written by `write_to_csv` (src/write.py lines 27-35). -/
def csvFieldnames : List String :=
  ["datetime_utc", "distance_au", "velocity_km_s", "designation", "name",
   "diameter_km", "potentially_hazardous"]

/-- How `csv.DictWriter` renders one cell: `None` becomes the empty cell,
every other value is rendered with `str()`. -/
def csvCell : PyVal → String
  | .none => ""
  | v => pyStr v

/-- One data row of `write_to_csv` (src/write.py lines 41-52): the row
dereferences `row.neo`, so an unset NEO reference raises
`AttributeError`. -/
def csvRow (row : CloseApproach) : Except PyErr (List String) := do
  let neo ← neoAttr row.neo
  pure [row.time_str, floatRepr row.distance, floatRepr row.velocity,
    csvCell neo.designation, csvCell neo.name, floatRepr neo.diameter,
    if neo.hazardous then "True" else "False"]

/-- `write_to_csv` (src/write.py lines 17-52): the rows of the written file
— header first, then one row per approach in input order.  A failing row
makes the call raise (rows already written before the failure are not
modelled; no claim depends on them). -/
def write_to_csv (results : List CloseApproach) :
    Except PyErr (List (List String)) := do
  let rows ← mapE csvRow results
  pure (csvFieldnames :: rows)

/-- `write_to_json` (src/write.py lines 55-78): the JSON document written —
one object per approach in input order, the approach's serialized fields
merged with the linked NEO's serialized fields nested under the fresh key
`neo` (`{**a, **b}` with disjoint keys appends the entries of `b`). -/
def write_to_json (results : List CloseApproach) : Except PyErr (List JVal) :=
  mapE (fun result => do
    let neo ← neoAttr result.neo
    pure (JVal.obj (result.serialize ++ [("neo", JVal.obj neo.serialize)])))
    results

/-- Follows the spec's words for the round-trip property: serializing an
Object and re-reading the recognized fields back through construction.
Each serialized field is looked up in the serialized dictionary and fed to
the constructor keyword that produced it. -/
def serializedInfo (neo : NearEarthObject) : Info :=
  fun k =>
    if k = "pdes" then (neo.serialize.lookup "designation").map JVal.toPyVal
    else if k = "name" then (neo.serialize.lookup "name").map JVal.toPyVal
    else if k = "diameter" then
      (neo.serialize.lookup "diameter_km").map JVal.toPyVal
    else if k = "pha" then
      (neo.serialize.lookup "potentially_hazardous").map JVal.toPyVal
    else Option.none

/-- Concrete malformed row: all fields present, the diameter value a
non-numeric string. -/
def infoMalformedDiameter : Info :=
  fun k =>
    if k = "pdes" then some (.str "433")
    else if k = "name" then some (.str "Eros")
    else if k = "diameter" then some (.str "abc")
    else if k = "pha" then some (.str "N")
    else Option.none

/-- Concrete well-formed row for the Eros scenario. -/
def infoEros : Info :=
  fun k =>
    if k = "pdes" then some (.str "433")
    else if k = "name" then some (.str "Eros")
    else if k = "diameter" then some (.str "16.84")
    else if k = "pha" then some (.str "N")
    else Option.none

/-- Concrete row whose optional values are all present but falsy. -/
def infoAllEmpty : Info :=
  fun k =>
    if k = "pdes" then some (.str "")
    else if k = "name" then some (.str "")
    else if k = "diameter" then some (.str "")
    else if k = "pha" then some (.str "")
    else Option.none

/-- Concrete approach row whose optional values are all present but
falsy. -/
def approachInfoAllEmpty : Info :=
  fun k =>
    if k = "designation" then some (.str "")
    else if k = "time" then some (.str "")
    else if k = "distance" then some (.str "")
    else if k = "velocity" then some (.str "")
    else Option.none

/-- Concrete approach row with malformed distance and empty time. -/
def approachInfoMalformedDistance : Info :=
  fun k =>
    if k = "designation" then some (.str "433")
    else if k = "time" then some (.str "")
    else if k = "distance" then some (.str "oops")
    else if k = "velocity" then some (.str "5.58")
    else Option.none

/-- Concrete hazardous object with a zero diameter, the round-trip
counterexample input. -/
def infoHazardousZero : Info :=
  fun k =>
    if k = "pdes" then some (.str "2019 OK")
    else if k = "name" then some (.str "")
    else if k = "diameter" then some (.str "0")
    else if k = "pha" then some (.str "Y")
    else Option.none

/-- The approaches JSON scenario from the spec: fields
`["des","cd","dist","v_rel"]`, one data row. -/
def cadScenario : CadJson where
  fields := ["des", "cd", "dist", "v_rel"]
  data := [[.str "433", .str "1900-Jan-01 00:00", .str "0.0921",
    .str "5.58"]]

/-- A concrete linked NEO used by witnesses. -/
def neoEros : NearEarthObject :=
  NearEarthObject.mk (.str "433") (.str "Eros") (.num 1684 2) false []

/-- A concrete linked approach used by witnesses. -/
def linkedApproach : CloseApproach :=
  CloseApproach.mk (.str "433") Option.none (.num 921 4) (.num 558 2)
    (some neoEros)

/-- A concrete unlinked approach (its state right after construction). -/
def unlinkedApproach : CloseApproach :=
  CloseApproach.mk (.str "433") Option.none (.num 921 4) (.num 558 2)
    Option.none

/-- The NEO constructed from `infoHazardousZero`. -/
def neoHazardousZero : NearEarthObject :=
  NearEarthObject.mk (.str "2019 OK") .none (.num 0 0) true []

/-- `infoEros` with an extra unrecognized field added. -/
def infoErosExtra : Info :=
  fun k => if k = "extra" then some (.str "ignored") else infoEros k

/-! Inversion and computation lemmas for the embedded operations. -/

theorem bindE_ok {ε α β : Type} {x : Except ε α} {f : α → Except ε β} {b : β} :
    (x >>= f) = .ok b ↔ ∃ a, x = .ok a ∧ f a = .ok b := by
  cases x <;> simp [Bind.bind, Except.bind]

theorem pureE_ok {ε α : Type} {a b : α} :
    (pure a : Except ε α) = .ok b ↔ a = b := by
  simp [pure, Except.pure]

theorem dictGet_ok {info : Info} {k : String} {v : PyVal} :
    dictGet info k = .ok v ↔ info k = some v := by
  cases h : info k <;> simp [dictGet, h]

theorem neoAttr_ok {o : Option NearEarthObject} {n : NearEarthObject} :
    neoAttr o = .ok n ↔ o = some n := by
  cases o <;> simp [neoAttr]

theorem toJVal_toPyVal (v : PyVal) : v.toJVal.toPyVal = v := by
  cases v <;> rfl

theorem pyOr_absorb {v d : PyVal} (hd : d.truthy = false) :
    pyOr (pyOr v d) d = pyOr v d := by
  by_cases h : v.truthy <;> simp [pyOr, h, hd]

theorem pyEqStr_true_iff {v : PyVal} {lit : String} :
    pyEqStr v lit = true ↔ v = .str lit := by
  cases v <;> simp [pyEqStr]

theorem pyEqStr_Y_of_falsy {v : PyVal} (h : v.truthy = false) :
    pyEqStr v "Y" = false := by
  cases v with
  | str s =>
    simp [PyVal.truthy] at h
    subst h
    rfl
  | none => rfl
  | float f => rfl
  | bool b => rfl

theorem mapE_ok_length {ε α β : Type} {f : α → Except ε β} {l : List α}
    {out : List β} (h : mapE f l = .ok out) : out.length = l.length := by
  induction l generalizing out with
  | nil =>
    simp [mapE] at h
    simp [← h]
  | cons a as ih =>
    simp only [mapE, bindE_ok, pureE_ok] at h
    obtain ⟨b, hb, bs, hbs, hout⟩ := h
    simp [← hout, ih hbs]

theorem mapE_error_of_mem {ε α β : Type} {f : α → Except ε β} {l : List α}
    {a : α} {e : ε} (hmem : a ∈ l) (ha : f a = .error e)
    (huniq : ∀ x e2, f x = .error e2 → e2 = e) :
    mapE f l = .error e := by
  induction l with
  | nil => cases hmem
  | cons x xs ih =>
    rcases List.mem_cons.mp hmem with hax | hax
    · subst hax
      simp [mapE, ha, Bind.bind, Except.bind]
    · cases hx : f x with
      | error e2 =>
        have := huniq x e2 hx
        subst this
        simp [mapE, hx, Bind.bind, Except.bind]
      | ok b =>
        simp [mapE, hx, Bind.bind, Except.bind, ih hax]

theorem listIndex_mem {x : String} {l : List String} {i : Nat}
    (h : listIndex x l = .ok i) : x ∈ l := by
  induction l generalizing i with
  | nil => simp [listIndex] at h
  | cons a as ih =>
    by_cases hax : a = x
    · subst hax
      exact List.mem_cons_self a as
    · rw [listIndex, if_neg hax] at h
      cases h2 : listIndex x as with
      | error e => rw [h2] at h; simp [Except.map] at h
      | ok j => exact List.mem_cons_of_mem a (ih h2)

theorem serializedInfo_pdes (neo : NearEarthObject) :
    serializedInfo neo "pdes" = some neo.designation := by
  have : serializedInfo neo "pdes" = some neo.designation.toJVal.toPyVal := rfl
  rw [this, toJVal_toPyVal]

theorem serializedInfo_name (neo : NearEarthObject) :
    serializedInfo neo "name" = some neo.name := by
  have : serializedInfo neo "name" = some neo.name.toJVal.toPyVal := rfl
  rw [this, toJVal_toPyVal]

theorem serializedInfo_diameter (neo : NearEarthObject) :
    serializedInfo neo "diameter" = some (.float neo.diameter) := rfl

theorem serializedInfo_pha (neo : NearEarthObject) :
    serializedInfo neo "pha" = some (.bool neo.hazardous) := rfl

theorem neoInit_ok {info : Info} {neo : NearEarthObject}
    (h : NearEarthObject.init info = .ok neo) :
    ∃ p n d ph dv, info "pdes" = some p ∧ info "name" = some n ∧
      info "diameter" = some d ∧ info "pha" = some ph ∧
      floatOrElse d PyFloat.nan = .ok dv ∧
      neo = NearEarthObject.mk (pyOr p (.str "")) (pyOr n .none) dv
        (pyEqStr ph "Y") [] := by
  unfold NearEarthObject.init at h
  simp only [bindE_ok, dictGet_ok, pureE_ok] at h
  obtain ⟨p, hp, n, hn, d, hd, dv, hdv, ph, hph, hneo⟩ := h
  exact ⟨p, n, d, ph, dv, hp, hn, hd, hph, hdv, hneo.symm⟩

theorem caInit_ok {info : Info} {ca : CloseApproach}
    (h : CloseApproach.init info = .ok ca) :
    ∃ des tv t dv dist vv vel, info "designation" = some des ∧
      info "time" = some tv ∧ timeOrNone tv = .ok t ∧
      info "distance" = some dv ∧ floatOrElse dv (.num 0 0) = .ok dist ∧
      info "velocity" = some vv ∧ floatOrElse vv (.num 0 0) = .ok vel ∧
      ca = CloseApproach.mk (pyOr des (.str "")) t dist vel Option.none := by
  unfold CloseApproach.init at h
  simp only [bindE_ok, dictGet_ok, pureE_ok] at h
  obtain ⟨des, hdes, tv, htv, t, ht, dv, hdv, dist, hdist, vv, hvv, vel, hvel,
    hca⟩ := h
  exact ⟨des, tv, t, dv, dist, vv, vel, hdes, htv, ht, hdv, hdist, hvv, hvel,
    hca.symm⟩

theorem csvRow_error_attr {ca : CloseApproach} {e : PyErr}
    (h : csvRow ca = .error e) : e = .attributeError := by
  unfold csvRow at h
  cases hn : ca.neo with
  | some n => simp [hn, neoAttr, Bind.bind, Except.bind, pure, Except.pure] at h
  | none =>
    simp [hn, neoAttr, Bind.bind, Except.bind] at h
    exact h.symm

/-! The claims. -/

/-- Claim C1: the claim says that for a missing input file `load_neos` and
`load_approaches` print the failure message and let no exception reach the
caller.  The code does print the message, but the `finally` clause then
evaluates `f.close()` with `f` unbound, so both calls raise
`UnboundLocalError` (a `NameError`) to the caller: the no-exception half of
the claim fails on the code, against the clear intent of the
`except FileNotFoundError` handler.  This theorem evaluates both loaders at
a missing path. -/
theorem load_missing_file_prints_then_raises :
    load_neos (fun _ => Option.none) "neos.csv" =
      (["File not found"], .error .nameError) ∧
    load_approaches (fun _ => Option.none) "cad.json" =
      (["File not found"], .error .nameError) :=
  ⟨rfl, rfl⟩

/-- Claim C2, counterexample: a row whose diameter value is the present but
malformed string `"abc"` makes `NearEarthObject.__init__` raise
`ValueError` from the `float` conversion — it is not silently degraded to
NaN, so the claim as stated is false at this input. -/
theorem malformed_value_raises_cex :
    NearEarthObject.init infoMalformedDiameter = .error .valueError := rfl

/-- Claim C2, amended: only absent (falsy) optional values degrade to their
defaults; an optional numeric value that is present (truthy) but malformed
makes record construction raise the `float` conversion error instead of
degrading.  Stated for the NEO diameter and the approach distance. -/
theorem malformed_value_raises :
    (∀ (info : Info) (p n v : PyVal) (e : PyErr),
      info "pdes" = some p → info "name" = some n →
      info "diameter" = some v → v.truthy = true → pyFloatOf v = .error e →
      NearEarthObject.init info = .error e) ∧
    (∀ (info : Info) (d t v : PyVal) (e : PyErr),
      info "designation" = some d → info "time" = some t →
      t.truthy = false →
      info "distance" = some v → v.truthy = true → pyFloatOf v = .error e →
      CloseApproach.init info = .error e) := by
  constructor
  · intro info p n v e hp hn hv ht he
    unfold NearEarthObject.init
    simp [dictGet, hp, hn, hv, floatOrElse, ht, he, Bind.bind, Except.bind]
  · intro info d t v e hd ht htt hv htv he
    unfold CloseApproach.init
    simp [dictGet, hd, ht, hv, timeOrNone, htt, floatOrElse, htv, he,
      Bind.bind, Except.bind, pure, Except.pure]

/-- Claim C2, witness: the amended theorem applied to a concrete approach
row with an empty time and the malformed distance string `"oops"`. -/
theorem malformed_value_raises_witness :
    CloseApproach.init approachInfoMalformedDistance = .error .valueError :=
  malformed_value_raises.2 approachInfoMalformedDistance (.str "433")
    (.str "") (.str "oops") .valueError rfl rfl rfl rfl rfl rfl

/-- Claim C3: record construction tolerates rows whose optional values are
present but falsy and applies the default policy — empty-string
designation, `None` name, NaN diameter, hazardous false, and for
approaches `None` time, `0.0` distance, `0.0` velocity (with the NEO
reference unset and the approaches collection empty). -/
theorem absent_optional_fields_default :
    (∀ (info : Info) (v1 v2 v3 v4 : PyVal),
      info "pdes" = some v1 → v1.truthy = false →
      info "name" = some v2 → v2.truthy = false →
      info "diameter" = some v3 → v3.truthy = false →
      info "pha" = some v4 → v4.truthy = false →
      NearEarthObject.init info =
        .ok (NearEarthObject.mk (.str "") .none .nan false [])) ∧
    (∀ (info : Info) (w1 w2 w3 w4 : PyVal),
      info "designation" = some w1 → w1.truthy = false →
      info "time" = some w2 → w2.truthy = false →
      info "distance" = some w3 → w3.truthy = false →
      info "velocity" = some w4 → w4.truthy = false →
      CloseApproach.init info =
        .ok (CloseApproach.mk (.str "") Option.none (.num 0 0) (.num 0 0)
          Option.none)) := by
  constructor
  · intro info v1 v2 v3 v4 h1 t1 h2 t2 h3 t3 h4 t4
    unfold NearEarthObject.init
    simp [dictGet, h1, h2, h3, h4, floatOrElse, t3, pyOr, t1, t2,
      pyEqStr_Y_of_falsy t4, Bind.bind, Except.bind, pure, Except.pure]
  · intro info w1 w2 w3 w4 h1 t1 h2 t2 h3 t3 h4 t4
    unfold CloseApproach.init
    simp [dictGet, h1, h2, h3, h4, timeOrNone, t2, floatOrElse, t3, t4,
      pyOr, t1, Bind.bind, Except.bind, pure, Except.pure]

/-- Claim C3, witness: both parts of the theorem applied to concrete rows
whose optional values are all the empty string. -/
theorem absent_optional_fields_default_witness :
    NearEarthObject.init infoAllEmpty =
      .ok (NearEarthObject.mk (.str "") .none .nan false []) ∧
    CloseApproach.init approachInfoAllEmpty =
      .ok (CloseApproach.mk (.str "") Option.none (.num 0 0) (.num 0 0)
        Option.none) :=
  ⟨absent_optional_fields_default.1 infoAllEmpty (.str "") (.str "")
      (.str "") (.str "") rfl rfl rfl rfl rfl rfl rfl rfl,
    absent_optional_fields_default.2 approachInfoAllEmpty (.str "") (.str "")
      (.str "") (.str "") rfl rfl rfl rfl rfl rfl rfl rfl⟩

/-- Claim C4: a constructed NEO is hazardous exactly when the raw `pha`
field value is the string `"Y"`; every other value, of any type, gives
hazardous false. -/
theorem hazardous_iff_pha_Y :
    ∀ (info : Info) (neo : NearEarthObject),
      NearEarthObject.init info = .ok neo →
      (neo.hazardous = true ↔ info "pha" = some (.str "Y")) := by
  intro info neo h
  obtain ⟨p, n, d, ph, dv, hp, hn, hd, hph, hdv, hneo⟩ :=
    neoInit_ok h
  subst hneo
  simp only [NearEarthObject.hazardous, pyEqStr_true_iff, hph]
  constructor
  · intro he
    rw [he]
  · intro he
    exact (Option.some.inj he)

/-- Claim C4, witness: the theorem applied to the concrete hazardous row
(`pha` is `"Y"`). -/
theorem hazardous_iff_pha_Y_witness :
    neoHazardousZero.hazardous = true ↔
      infoHazardousZero "pha" = some (.str "Y") :=
  hazardous_iff_pha_Y infoHazardousZero neoHazardousZero rfl

/-- Claim C5: `fullname` is `"<designation> (<name>)"` when the name is
present (a nonempty string), else `"<designation>"` when only the
designation is present, else the literal fallback `"(No name specified)"`
when both are absent (for a loaded object, an absent name is `None` and an
absent designation is the empty string). -/
theorem fullname_cases :
    (∀ (neo : NearEarthObject) (d s : String),
      neo.designation = .str d → neo.name = .str s → s ≠ "" →
      neo.fullname = d ++ " (" ++ s ++ ")") ∧
    (∀ (neo : NearEarthObject) (d : String),
      neo.designation = .str d → d ≠ "" → neo.name = .none →
      neo.fullname = d) ∧
    (∀ neo : NearEarthObject,
      neo.designation = .str "" → neo.name = .none →
      neo.fullname = "(No name specified)") := by
  refine ⟨?_, ?_, ?_⟩
  · intro neo d s hd hn hs
    simp [NearEarthObject.fullname, hd, hn, PyVal.truthy, hs, pyStr]
  · intro neo d hd hdne hn
    simp [NearEarthObject.fullname, hd, hn, PyVal.truthy, hdne, pyStr]
  · intro neo hd hn
    simp [NearEarthObject.fullname, hd, hn, PyVal.truthy, pyStr]

/-- Claim C5, witness: the three branches of the theorem at concrete
objects — named, unnamed, and fully absent. -/
theorem fullname_cases_witness :
    NearEarthObject.fullname
        (NearEarthObject.mk (.str "433") (.str "Eros") .nan false []) =
      "433" ++ " (" ++ "Eros" ++ ")" ∧
    NearEarthObject.fullname
        (NearEarthObject.mk (.str "433") .none .nan false []) = "433" ∧
    NearEarthObject.fullname
        (NearEarthObject.mk (.str "") .none .nan false []) =
      "(No name specified)" :=
  ⟨fullname_cases.1 _ "433" "Eros" rfl rfl (by decide),
    fullname_cases.2.1 _ "433" rfl (by decide) rfl,
    fullname_cases.2.2 _ rfl rfl⟩

/-- Claim C6: `load_approaches` resolves the four required field names to
column positions from the `fields` array and maps every data row to an
approach through those positions.  Concretely, fields
`["des","cd","dist","v_rel"]` with data row
`["433","1900-Jan-01 00:00","0.0921","5.58"]` produce exactly one approach
with designation key `"433"`, the parsed timestamp, distance `0.0921` and
velocity `5.58`; and in general a successful load yields one approach per
data row and requires all four names to occur in the fields array. -/
theorem load_approaches_positional :
    load_approaches (fun _ => some cadScenario) "cad.json" =
      ([], .ok [CloseApproach.mk (.str "433")
        (some (DateTime.mk 1900 1 1 0 0)) (.num 921 4) (.num 558 2)
        Option.none]) ∧
    (∀ (j : CadJson) (out : List CloseApproach),
      approachesFromJson j = .ok out →
      out.length = j.data.length ∧ "des" ∈ j.fields ∧ "cd" ∈ j.fields ∧
        "dist" ∈ j.fields ∧ "v_rel" ∈ j.fields) := by
  refine ⟨rfl, ?_⟩
  intro j out h
  unfold approachesFromJson at h
  simp only [bindE_ok] at h
  obtain ⟨i1, h1, i2, h2, i3, h3, i4, h4, hmap⟩ := h
  exact ⟨mapE_ok_length hmap, listIndex_mem h1, listIndex_mem h2,
    listIndex_mem h3, listIndex_mem h4⟩

/-- Claim C6, witness: the general part of the theorem applied to the
concrete scenario document. -/
theorem load_approaches_positional_witness :
    [CloseApproach.mk (.str "433") (some (DateTime.mk 1900 1 1 0 0))
        (.num 921 4) (.num 558 2) Option.none].length =
      cadScenario.data.length ∧
    "des" ∈ cadScenario.fields ∧ "cd" ∈ cadScenario.fields ∧
    "dist" ∈ cadScenario.fields ∧ "v_rel" ∈ cadScenario.fields :=
  load_approaches_positional.2 cadScenario
    [CloseApproach.mk (.str "433") (some (DateTime.mk 1900 1 1 0 0))
      (.num 921 4) (.num 558 2) Option.none] rfl

/-- Claim C7, counterexample: the hazardous, zero-diameter object built
from `infoHazardousZero` does not survive the serialize / re-read round
trip: the re-read object has hazardous false (the serialized boolean `True`
never equals the raw string `"Y"`) and NaN diameter (the serialized `0.0`
is falsy, so it degrades to the NaN default), both differing from the
original. -/
theorem serialize_roundtrip_cex :
    NearEarthObject.init infoHazardousZero = .ok neoHazardousZero ∧
    NearEarthObject.init (serializedInfo neoHazardousZero) =
      .ok (NearEarthObject.mk (.str "2019 OK") .none .nan false []) ∧
    neoHazardousZero.hazardous = true ∧
    neoHazardousZero.diameter = .num 0 0 ∧
    (NearEarthObject.mk (.str "2019 OK") .none .nan false []).hazardous ≠
      neoHazardousZero.hazardous ∧
    (NearEarthObject.mk (.str "2019 OK") .none .nan false []).diameter ≠
      neoHazardousZero.diameter :=
  ⟨rfl, rfl, rfl, rfl, by decide, by decide⟩

/-- Claim C7, amended: serializing a constructed Object and re-reading the
recognized fields back through construction preserves the designation and
the name; the diameter is preserved under NaN-aware equality unless it is
zero, in which case it degrades to NaN (a zero float is falsy); and the
hazard flag is always read back as false, because the serialized boolean
never equals the raw string `"Y"` — so it is preserved exactly for
non-hazardous objects. -/
theorem serialize_roundtrip_amended :
    ∀ (info : Info) (neo : NearEarthObject),
      NearEarthObject.init info = .ok neo →
      NearEarthObject.init (serializedInfo neo) =
        .ok (NearEarthObject.mk neo.designation neo.name
          (if neo.diameter.isZero then PyFloat.nan else neo.diameter)
          false []) := by
  intro info neo h
  obtain ⟨p, n, d, ph, dv, hp, hn, hd, hph, hdv, hneo⟩ :=
    neoInit_ok h
  subst hneo
  unfold NearEarthObject.init
  simp only [dictGet, serializedInfo_pdes, serializedInfo_name,
    serializedInfo_diameter, serializedInfo_pha, NearEarthObject.designation,
    NearEarthObject.name, NearEarthObject.diameter, NearEarthObject.hazardous,
    Bind.bind, Except.bind]
  rcases hz : dv.isZero with hfalse | htrue
  · simp [floatOrElse, PyVal.truthy, hz, pyFloatOf,
      pyOr_absorb (v := p) (d := PyVal.str "") rfl,
      pyOr_absorb (v := n) (d := PyVal.none) rfl, pyEqStr,
      pure, Except.pure]
  · simp [floatOrElse, PyVal.truthy, hz,
      pyOr_absorb (v := p) (d := PyVal.str "") rfl,
      pyOr_absorb (v := n) (d := PyVal.none) rfl, pyEqStr,
      pure, Except.pure]

/-- Claim C7, witness: the amended theorem applied to the Eros row (named,
nonzero diameter, not hazardous), where the round trip is the identity. -/
theorem serialize_roundtrip_amended_witness :
    NearEarthObject.init (serializedInfo neoEros) =
      .ok (NearEarthObject.mk neoEros.designation neoEros.name
        (if neoEros.diameter.isZero then PyFloat.nan else neoEros.diameter)
        false []) :=
  serialize_roundtrip_amended infoEros neoEros rfl

/-- Claim C8: on an input of linked approaches, `write_to_json` succeeds
and produces one document entry per approach, in input order, each entry
merging the approach's serialized fields with the linked NEO's serialized
fields nested under the key `neo`. -/
theorem write_to_json_structure :
    ∀ results : List CloseApproach,
      (∀ ca ∈ results, (ca.neo).isSome = true) →
      ∃ docs, write_to_json results = .ok docs ∧
        docs.length = results.length ∧
        List.Forall₂ (fun ca doc => ∀ n, ca.neo = some n →
          doc = JVal.obj (ca.serialize ++ [("neo", JVal.obj n.serialize)]))
          results docs := by
  intro results
  induction results with
  | nil => exact fun _ => ⟨[], rfl, rfl, List.Forall₂.nil⟩
  | cons ca rest ih =>
    intro h
    obtain ⟨n, hn⟩ :=
      Option.isSome_iff_exists.mp (h ca (List.mem_cons_self ca rest))
    obtain ⟨docs, hdocs, hlen, hrel⟩ :=
      ih (fun x hx => h x (List.mem_cons_of_mem _ hx))
    refine ⟨JVal.obj (ca.serialize ++ [("neo", JVal.obj n.serialize)]) ::
      docs, ?_, ?_, ?_⟩
    · unfold write_to_json at hdocs ⊢
      have hf : (do
          let neo ← neoAttr ca.neo
          pure (JVal.obj
            (ca.serialize ++ [("neo", JVal.obj neo.serialize)])) :
            Except PyErr JVal) =
          Except.ok
            (JVal.obj (ca.serialize ++ [("neo", JVal.obj n.serialize)])) := by
        simp [hn, neoAttr, Bind.bind, Except.bind, pure, Except.pure]
      rw [mapE, hf, hdocs]
      simp [Bind.bind, Except.bind, pure, Except.pure]
    · simp [hlen]
    · refine List.Forall₂.cons ?_ hrel
      intro n2 hn2
      rw [hn] at hn2
      cases hn2
      rfl

/-- Claim C8, witness: the theorem applied to the singleton list holding
the concrete linked approach. -/
theorem write_to_json_structure_witness :
    ∃ docs, write_to_json [linkedApproach] = .ok docs ∧
      docs.length = [linkedApproach].length ∧
      List.Forall₂ (fun ca doc => ∀ n, ca.neo = some n →
        doc = JVal.obj (ca.serialize ++ [("neo", JVal.obj n.serialize)]))
        [linkedApproach] docs :=
  write_to_json_structure [linkedApproach]
    (fun ca hca => by rw [List.mem_singleton] at hca; subst hca; rfl)

/-- Claim C9: right after construction an approach's NEO reference is
unset (`None`); on such an approach the human-readable string conversion
and `write_to_csv` dereference the linked NEO and raise `AttributeError`
instead of producing output — a linked NEO is a precondition of both. -/
theorem unlinked_neo_operations_fail :
    (∀ (info : Info) (ca : CloseApproach),
      CloseApproach.init info = .ok ca → ca.neo = Option.none) ∧
    (∀ ca : CloseApproach, ca.neo = Option.none →
      CloseApproach.str ca = .error .attributeError) ∧
    (∀ (results : List CloseApproach) (ca : CloseApproach),
      ca ∈ results → ca.neo = Option.none →
      write_to_csv results = .error .attributeError) := by
  refine ⟨?_, ?_, ?_⟩
  · intro info ca h
    obtain ⟨des, tv, t, dv, dist, vv, vel, _, _, _, _, _, _, _, hca⟩ :=
      caInit_ok h
    subst hca
    rfl
  · intro ca h
    unfold CloseApproach.str
    simp [h, neoAttr, Bind.bind, Except.bind]
  · intro results ca hmem h
    have hrow : csvRow ca = .error .attributeError := by
      unfold csvRow
      simp [h, neoAttr, Bind.bind, Except.bind]
    have hmap : mapE csvRow results = .error .attributeError :=
      mapE_error_of_mem hmem hrow (fun x e2 hx => csvRow_error_attr hx)
    unfold write_to_csv
    simp [hmap, Bind.bind, Except.bind]

/-- Claim C9, witness: both failing operations evaluated at the concrete
unlinked approach. -/
theorem unlinked_neo_operations_fail_witness :
    CloseApproach.str unlinkedApproach = .error .attributeError ∧
    write_to_csv [unlinkedApproach] = .error .attributeError :=
  ⟨unlinked_neo_operations_fail.2.1 unlinkedApproach rfl,
    unlinked_neo_operations_fail.2.2 [unlinkedApproach] unlinkedApproach
      (List.mem_singleton.mpr rfl) rfl⟩

/-- Claim C10: NEO construction reads only the fields `pdes`, `name`,
`diameter` and `pha` — two rows that agree on those four keys construct
identically (same outcome, hence same designation, name, diameter and
hazard flag) whatever other fields either row carries — and every
constructed NEO starts with an empty approaches collection. -/
theorem init_reads_only_recognized_fields :
    (∀ info1 info2 : Info,
      info1 "pdes" = info2 "pdes" → info1 "name" = info2 "name" →
      info1 "diameter" = info2 "diameter" → info1 "pha" = info2 "pha" →
      NearEarthObject.init info1 = NearEarthObject.init info2) ∧
    (∀ (info : Info) (neo : NearEarthObject),
      NearEarthObject.init info = .ok neo → neo.approaches = []) := by
  constructor
  · intro info1 info2 h1 h2 h3 h4
    simp only [NearEarthObject.init, dictGet, h1, h2, h3, h4]
  · intro info neo h
    obtain ⟨p, n, d, ph, dv, _, _, _, _, _, hneo⟩ :=
      neoInit_ok h
    subst hneo
    rfl

/-- Claim C10, witness: the Eros row against the Eros row extended with an
extra unrecognized field, and the empty approaches collection of the
constructed object. -/
theorem init_reads_only_recognized_fields_witness :
    NearEarthObject.init infoEros = NearEarthObject.init infoErosExtra ∧
    neoEros.approaches = [] :=
  ⟨init_reads_only_recognized_fields.1 infoEros infoErosExtra rfl rfl rfl
      rfl,
    init_reads_only_recognized_fields.2 infoEros neoEros rfl⟩
